import Mathlib

/-!
Verification of the keygen API client (Go package `keygen`): a shallow
embedding of `client.go` and `types.go`, with theorems about the transport
executor (`Client.do`), its error classification, the paginated listing
operations, and the license-key resolver.

Modelling conventions:
* HTTP status codes are modelled as `Nat`; no machine-integer overflow is
  involved anywhere in the client.
* A Go `error` interface value is modelled by `GoError`, with one
  constructor per concrete error shape the package can produce or name.
* The effects of one `Client.do` call (JSON encoding, request construction,
  the HTTP round trip, JSON decoding) are supplied explicitly as a `DoEnv`.
* A multi-request operation receives the list of outcomes the server would
  return to its successive requests, and the embedding returns, next to the
  Go return values, the list of requests the operation actually issued.
* Go builds each request path by encoding an `url.Values` query into the
  path string; the embedding keeps the query structured as key/value pairs,
  listed in the sorted key order `url.Values.Encode` emits.
-/

namespace Keygen

/-- Go `error` values as this package constructs them: `fmt.Errorf` without a
`%w` verb produces a plain message (`errorString`), `fmt.Errorf` with `%w`
produces a message wrapping a cause (`wrapError`), and `types.go` exports the
struct `HTTPError` with fields `Method`, `Path`, `StatusCode`, `Body`, `Err`. -/
inductive GoError : Type where
  | errorString (msg : String)
  | wrapError (msg : String) (wrapped : GoError)
  | httpError (Method : String) (Path : String) (StatusCode : Nat)
      (Body : String) (Err : Option GoError)

/-- Result of calling `.Error()` on the value. For `HTTPError`, `types.go`
returns `Body` when non-empty and otherwise delegates to `Err`; a `nil` `Err`
together with an empty body would make the Go method panic, rendered here
as `""`. -/
def GoError.Error : GoError → String
  | .errorString msg => msg
  | .wrapError msg _ => msg
  | .httpError _ _ _ body err =>
      if body ≠ "" then body
      else
        match err with
        | some e => e.Error
        | none => ""

/-- Result of `errors.Unwrap` on the value: `fmt.Errorf` with `%w` and
`HTTPError.Unwrap` expose a cause; a plain `fmt.Errorf` error exposes none. -/
def GoError.Unwrap : GoError → Option GoError
  | .errorString _ => none
  | .wrapError _ wrapped => some wrapped
  | .httpError _ _ _ _ err => err

/-- Whether the Go type assertion `err.(*HTTPError)` succeeds on the value. -/
def GoError.isHTTPError : GoError → Bool
  | .httpError _ _ _ _ _ => true
  | _ => false

/-- An HTTP response as `Client.do` consumes it: `resp.StatusCode` and the
bytes read from `resp.Body`. -/
structure HTTPResponse : Type where
  StatusCode : Nat
  Body : String
  deriving Repr, DecidableEq

/-- Outcome of `c.http.Do(req)`: a response, or a transport failure (network
error, cancelled context) carrying the failure's message. -/
inductive TransportOutcome : Type where
  | ok (resp : HTTPResponse)
  | fail (msg : String)
  deriving Repr, DecidableEq

/-- Environment of one `Client.do` call: whether JSON-encoding the request
body fails (consulted only when `in != nil`), whether
`http.NewRequestWithContext` fails, what the transport returns, and how the
response body decodes into the caller's `out` type (consulted only when
`out != nil`). -/
structure DoEnv (α : Type) : Type where
  encodeFail : Option String
  newReqFail : Option String
  transport : TransportOutcome
  decode : String → Except String α

/-- One value per `return` site of `Client.do`, in source order: the two
pre-transport failures, the transport failure, the non-2xx classification,
the 2xx/no-`out` success, the decode failure, and the decoded success. -/
inductive DoExit (α : Type) : Type where
  | encodeError (msg : String)
  | newRequestError (msg : String)
  | transportError (msg : String)
  | apiError (code : Nat) (body : String)
  | okNoOut (code : Nat)
  | decodeError (code : Nat) (msg : String)
  | okOut (code : Nat) (val : α)
  deriving Repr

/-- Control flow of `Client.do`: which return site a call exits through.
`hasIn` is whether `in != nil`, `wantOut` whether `out != nil`. The non-2xx
test is the source's `httpCode < 200 || httpCode >= 300`. -/
def doExec (hasIn wantOut : Bool) (env : DoEnv α) : DoExit α :=
  match (if hasIn then env.encodeFail else none) with
  | some msg => .encodeError msg
  | none =>
    match env.newReqFail with
    | some msg => .newRequestError msg
    | none =>
      match env.transport with
      | .fail msg => .transportError msg
      | .ok resp =>
        if resp.StatusCode < 200 ∨ 300 ≤ resp.StatusCode then
          .apiError resp.StatusCode resp.Body
        else if !wantOut then .okNoOut resp.StatusCode
        else
          match env.decode resp.Body with
          | .error msg => .decodeError resp.StatusCode msg
          | .ok v => .okOut resp.StatusCode v

/-- Message of the error built at the non-2xx branch of `Client.do`:
`fmt.Errorf("keygen: %s %s -> HTTP %d", method, path, httpCode)`, with
`": <body>"` appended when the body read from the response is non-empty. -/
def apiErrorMessage (method path : String) (code : Nat) (body : String) : String :=
  if body = "" then
    "keygen: " ++ method ++ " " ++ path ++ " -> HTTP " ++ toString code
  else
    "keygen: " ++ method ++ " " ++ path ++ " -> HTTP " ++ toString code ++ ": " ++ body

/-- The `int` (status code) component `Client.do` returns at each exit: `0`
before any response is received, the response's status code afterwards. -/
def DoExit.httpCode : DoExit α → Nat
  | .encodeError _ => 0
  | .newRequestError _ => 0
  | .transportError _ => 0
  | .apiError code _ => code
  | .okNoOut code => code
  | .decodeError code _ => code
  | .okOut code _ => code

/-- The `error` component `Client.do` returns at each exit. Every error path
uses `fmt.Errorf` (the source comment reads "return body as plain error
string (no custom types)"); none constructs the exported `HTTPError`. -/
def DoExit.goError (method path : String) : DoExit α → Option GoError
  | .encodeError msg =>
      some (.wrapError ("keygen: encode request: " ++ msg) (.errorString msg))
  | .newRequestError msg =>
      some (.wrapError ("keygen: new request: " ++ msg) (.errorString msg))
  | .transportError msg =>
      some (.wrapError ("keygen: do request: " ++ msg) (.errorString msg))
  | .apiError code body => some (.errorString (apiErrorMessage method path code body))
  | .okNoOut _ => none
  | .decodeError _ msg =>
      some (.wrapError ("keygen: decode response: " ++ msg) (.errorString msg))
  | .okOut _ _ => none

/-- The value stored into `out` (present only at the success exit of a call
that requested decoding). -/
def DoExit.value : DoExit α → Option α
  | .okOut _ v => some v
  | _ => none

/-- The full observable result of `Client.do(ctx, method, path, in, out)`:
the returned `(httpCode, err)` pair plus the value decoded into `out`. -/
def doReturn (method path : String) (hasIn wantOut : Bool) (env : DoEnv α) :
    Nat × Option GoError × Option α :=
  ((doExec hasIn wantOut env).httpCode,
   (doExec hasIn wantOut env).goError method path,
   (doExec hasIn wantOut env).value)

/-- The response a `Client.do` call receives, if it gets as far as a
completed HTTP exchange (`none` when JSON encoding, request construction, or
the transport fails first, i.e. when no HTTP response was received). -/
def responseReceived (hasIn : Bool) (env : DoEnv α) : Option HTTPResponse :=
  match (if hasIn then env.encodeFail else none) with
  | some _ => none
  | none =>
    match env.newReqFail with
    | some _ => none
    | none =>
      match env.transport with
      | .fail _ => none
      | .ok resp => some resp

/-- The `Client` struct (`client.go`). The `http.Client` field is the
transport supplied abstractly through `DoEnv`/`FetchOutcome`; the remaining
fields are carried verbatim. -/
structure Client : Type where
  accountID : String
  apiToken : String
  baseURL : String
  defaultMachineName : String
  defaultPlatform : String
  deriving Repr, DecidableEq

/-- Wire shape `relationshipData` (`wire.go`): `{type, id}`. The Go field
`Type` is spelled with a trailing tick because `Type` is reserved in Lean. -/
structure RelationshipData : Type where
  Type' : String
  ID : String
  deriving Repr, DecidableEq

/-- Wire shape `licenseRelationship`: `{data}`. -/
structure LicenseRelationship : Type where
  Data : RelationshipData
  deriving Repr, DecidableEq

/-- Wire shape `machineAttributes`. -/
structure MachineAttributes : Type where
  Fingerprint : String
  Platform : String
  Name : String
  deriving Repr, DecidableEq

/-- Wire shape `machineRelationships`. -/
structure MachineRelationships : Type where
  License : LicenseRelationship
  deriving Repr, DecidableEq

/-- Wire shape `machineData`. -/
structure MachineData : Type where
  ID : String
  Type' : String
  Attributes : MachineAttributes
  Relationships : MachineRelationships
  deriving Repr, DecidableEq

/-- Wire shape `machineResponse` (`{data}`), the decode target of the
machine-creation call. -/
structure MachineResponse : Type where
  Data : MachineData
  deriving Repr, DecidableEq

/-- Pagination links of a listing response as `client.go` reads them:
`resp.Links.Next`, a nullable string. -/
structure PageLinks : Type where
  Next : Option String
  deriving Repr, DecidableEq

/-- Wire shape `machinesListResponse` as `Client.ListAllMachines` and
`Client.ListMachines` consume it: the decoded machine list plus the
`links.next` cursor field read by the loop in `ListAllMachines`. -/
structure MachinesListResponse : Type where
  Data : List MachineData
  Links : PageLinks
  deriving Repr, DecidableEq

/-- Attributes of one license entry of `listLicensesByPolicyResponse`. The
`map[string]any` metadata is carried as an opaque blob: the client only
copies it, never inspects it. -/
structure LicenseEntryAttributes : Type where
  Key : String
  Status : String
  Metadata : String
  deriving Repr, DecidableEq

/-- One license entry of `listLicensesByPolicyResponse`. -/
structure LicenseEntry : Type where
  ID : String
  Attributes : LicenseEntryAttributes
  deriving Repr, DecidableEq

/-- Wire shape `listLicensesByPolicyResponse` as the loop consumes it:
decoded entries plus the `links.next` cursor field. -/
structure ListLicensesByPolicyResponse : Type where
  Data : List LicenseEntry
  Links : PageLinks
  deriving Repr, DecidableEq

/-- One entry of `getLicenseBySubscriptionResponse.Data` (`{id}`). -/
structure LicenseIDEntry : Type where
  ID : String
  deriving Repr, DecidableEq

/-- Wire shape `getLicenseBySubscriptionResponse`. -/
structure GetLicenseBySubscriptionResponse : Type where
  Data : List LicenseIDEntry
  deriving Repr, DecidableEq

/-- Wire shapes of `licenseValidationResponse.meta.scope`. -/
structure ValidationScope : Type where
  Fingerprint : String
  deriving Repr, DecidableEq

/-- Wire shape of `licenseValidationResponse.meta`. -/
structure ValidationMeta : Type where
  Valid : Bool
  Code : String
  Detail : String
  Timestamp : String
  Scope : ValidationScope
  deriving Repr, DecidableEq

/-- Wire shape of `licenseValidationResponse.data.attributes`. -/
structure ValidationAttributes : Type where
  Key : String
  Expiry : String
  Status : String
  deriving Repr, DecidableEq

/-- Wire shape of `licenseValidationResponse.data`. -/
structure ValidationData : Type where
  ID : String
  Type' : String
  Attributes : ValidationAttributes
  deriving Repr, DecidableEq

/-- Wire shape `licenseValidationResponse`. -/
structure LicenseValidationResponse : Type where
  Meta : ValidationMeta
  Data : ValidationData
  deriving Repr, DecidableEq

/-- Normalized view `LicenseSummary` (`types.go`), metadata carried
opaquely as in `LicenseEntryAttributes`. -/
structure LicenseSummary : Type where
  ID : String
  Key : String
  Status : String
  Metadata : String
  deriving Repr, DecidableEq

/-- Simplified machine representation `Machine` (`types.go`). -/
structure Machine : Type where
  ID : String
  LicenseId : String
  Fingerprint : String
  Platform : String
  Name : String
  deriving Repr, DecidableEq

/-- Request bodies serialized by the operations under verification. -/
inductive WireBody : Type where
  | validateKey (Key : String)
  | machineCreate (Data : MachineData)
  deriving Repr, DecidableEq

/-- One HTTP request as an operation issues it. Go encodes `query` into the
path string via `url.Values.Encode`; the embedding keeps it structured, in
the sorted key order `Encode` emits. -/
structure Request : Type where
  method : String
  basePath : String
  query : List (String × String)
  body : Option WireBody
  deriving Repr, DecidableEq

/-- The outcome of one `Client.do` call as the calling operation observes
it: the returned status code together with either the error or the decoded
response. -/
inductive FetchOutcome (β : Type) : Type where
  | fail (code : Nat) (e : GoError)
  | success (code : Nat) (resp : β)

/-- Result of a listing operation: Go's `(items, lastHttpCode, nil)` on
success, `(nil, httpCode, err)` on failure, or `outOfScript` — the modelling
artifact for a run that issues more requests than the script answers. -/
inductive PagedResult (α : Type) : Type where
  | ok (items : List α) (lastCode : Nat)
  | err (code : Nat) (e : GoError)
  | outOfScript

/-- Result of a single-exchange operation returning a value: Go's
`(value, httpCode, nil)` or `(zeroValue, httpCode, err)`. -/
inductive OpResult (α : Type) : Type where
  | ok (val : α) (code : Nat)
  | err (code : Nat) (e : GoError)

/-- The request `ListLicensesByPolicy` issues for one page:
`GET /accounts/<acct>/licenses?page[number]=<n>&page[size]=100&policy=<id>`. -/
def licensesByPolicyRequest (c : Client) (policyID : String) (page : Nat) : Request :=
  { method := "GET"
  , basePath := "/accounts/" ++ c.accountID ++ "/licenses"
  , query := [("page[number]", toString page), ("page[size]", "100"), ("policy", policyID)]
  , body := none }

/-- The request `ListAllMachines` issues for one page:
`GET /accounts/<acct>/machines?page[number]=<n>&page[size]=100`. -/
def machinesPageRequest (c : Client) (page : Nat) : Request :=
  { method := "GET"
  , basePath := "/accounts/" ++ c.accountID ++ "/machines"
  , query := [("page[number]", toString page), ("page[size]", "100")]
  , body := none }

/-- The single request `ListMachines` issues:
`GET /accounts/<acct>/machines?license=<id>&page[number]=1&page[size]=100`. -/
def machinesByLicenseRequest (c : Client) (licenseID : String) : Request :=
  { method := "GET"
  , basePath := "/accounts/" ++ c.accountID ++ "/machines"
  , query := [("license", licenseID), ("page[number]", "1"), ("page[size]", "100")]
  , body := none }

/-- The request `ResolveLicenseID` issues:
`POST /accounts/<acct>/licenses/actions/validate-key` carrying only the key. -/
def validateKeyRequest (c : Client) (licenseKey : String) : Request :=
  { method := "POST"
  , basePath := "/accounts/" ++ c.accountID ++ "/licenses/actions/validate-key"
  , query := []
  , body := some (.validateKey licenseKey) }

/-- The request `ActivateMachine` issues to create the machine. -/
def machineCreateHTTPRequest (c : Client) (d : MachineData) : Request :=
  { method := "POST"
  , basePath := "/accounts/" ++ c.accountID ++ "/machines"
  , query := []
  , body := some (.machineCreate d) }

/-- The request `DeactivateMachine` issues to delete a matched machine:
`DELETE /accounts/<acct>/machines/<machineID>`. -/
def machineDeleteRequest (c : Client) (machineID : String) : Request :=
  { method := "DELETE"
  , basePath := "/accounts/" ++ c.accountID ++ "/machines/" ++ machineID
  , query := []
  , body := none }

/-- The request `GetLicenseBySubscriptionID` issues:
`GET /accounts/<acct>/licenses?metadata[subscriptionId]=<sub>`. -/
def licenseBySubscriptionRequest (c : Client) (subscriptionID : String) : Request :=
  { method := "GET"
  , basePath := "/accounts/" ++ c.accountID ++ "/licenses"
  , query := [("metadata[subscriptionId]", subscriptionID)]
  , body := none }

/-- The `LicenseSummary` built from one decoded entry in
`ListLicensesByPolicy`'s loop body. -/
def licenseSummaryOfEntry (d : LicenseEntry) : LicenseSummary :=
  { ID := d.ID
  , Key := d.Attributes.Key
  , Status := d.Attributes.Status
  , Metadata := d.Attributes.Metadata }

/-- The `Machine` built in `ListMachines`'s loop body (the `LicenseId` field
is left at its zero value there). -/
def machineOfDataByLicense (d : MachineData) : Machine :=
  { ID := d.ID
  , LicenseId := ""
  , Fingerprint := d.Attributes.Fingerprint
  , Platform := d.Attributes.Platform
  , Name := d.Attributes.Name }

/-- The `Machine` built in `ListAllMachines`'s loop body (includes the
license ID read from the relationship). -/
def machineOfDataAll (d : MachineData) : Machine :=
  { ID := d.ID
  , LicenseId := d.Relationships.License.Data.ID
  , Fingerprint := d.Attributes.Fingerprint
  , Platform := d.Attributes.Platform
  , Name := d.Attributes.Name }

/-- Loop of `Client.ListLicensesByPolicy`: one iteration per scripted
outcome; page counter starting at `page`, accumulator `out`. A fetch error
aborts with Go's `return nil, httpCode, err`; the loop breaks exactly when
`resp.Links.Next == nil`. -/
def listLicensesByPolicyLoop (c : Client) (policyID : String)
    (script : List (FetchOutcome ListLicensesByPolicyResponse))
    (page : Nat) (out : List LicenseSummary) :
    PagedResult LicenseSummary × List Request :=
  match script with
  | [] => (.outOfScript, [licensesByPolicyRequest c policyID page])
  | f :: rest =>
    let req := licensesByPolicyRequest c policyID page
    match f with
    | .fail code e => (.err code e, [req])
    | .success code resp =>
      let out := out ++ resp.Data.map licenseSummaryOfEntry
      match resp.Links.Next with
      | none => (.ok out code, [req])
      | some _ =>
        let r := listLicensesByPolicyLoop c policyID rest (page + 1) out
        (r.1, req :: r.2)

/-- `Client.ListLicensesByPolicy` (`client.go`): pages start at 1 with an
empty accumulator. -/
def Client.ListLicensesByPolicy (c : Client) (policyID : String)
    (script : List (FetchOutcome ListLicensesByPolicyResponse)) :
    PagedResult LicenseSummary × List Request :=
  listLicensesByPolicyLoop c policyID script 1 []

/-- `Client.ListLicenseKeysByPolicy` (`client.go`): the keys of the listed
licenses, skipping entries whose key is empty. -/
def Client.ListLicenseKeysByPolicy (c : Client) (policyID : String)
    (script : List (FetchOutcome ListLicensesByPolicyResponse)) :
    PagedResult String × List Request :=
  match c.ListLicensesByPolicy policyID script with
  | (.ok items code, reqs) =>
      (.ok ((items.filter (fun it => it.Key != "")).map LicenseSummary.Key) code, reqs)
  | (.err code e, reqs) => (.err code e, reqs)
  | (.outOfScript, reqs) => (.outOfScript, reqs)

/-- Loop of `Client.ListAllMachines`, structured exactly as
`listLicensesByPolicyLoop` (the source duplicates the cursor logic). -/
def listAllMachinesLoop (c : Client)
    (script : List (FetchOutcome MachinesListResponse))
    (page : Nat) (out : List Machine) :
    PagedResult Machine × List Request :=
  match script with
  | [] => (.outOfScript, [machinesPageRequest c page])
  | f :: rest =>
    let req := machinesPageRequest c page
    match f with
    | .fail code e => (.err code e, [req])
    | .success code resp =>
      let out := out ++ resp.Data.map machineOfDataAll
      match resp.Links.Next with
      | none => (.ok out code, [req])
      | some _ =>
        let r := listAllMachinesLoop c rest (page + 1) out
        (r.1, req :: r.2)

/-- `Client.ListAllMachines` (`client.go`). -/
def Client.ListAllMachines (c : Client)
    (script : List (FetchOutcome MachinesListResponse)) :
    PagedResult Machine × List Request :=
  listAllMachinesLoop c script 1 []

/-- `Client.ListMachines` (`client.go`): `page` is initialized to 1 and a
single `do` call is made — the source contains no loop and never reads
`resp.Links`, so only the head of the script is consumed. -/
def Client.ListMachines (c : Client) (licenseID : String)
    (script : List (FetchOutcome MachinesListResponse)) :
    PagedResult Machine × List Request :=
  let req := machinesByLicenseRequest c licenseID
  match script with
  | [] => (.outOfScript, [req])
  | .fail code e :: _ => (.err code e, [req])
  | .success code resp :: _ => (.ok (resp.Data.map machineOfDataByLicense) code, [req])

/-- `Client.ResolveLicenseID` (`client.go`): posts the key to `validate-key`
and requires a non-empty `data.id` in the decoded response. -/
def Client.ResolveLicenseID (c : Client) (licenseKey : String)
    (f : FetchOutcome LicenseValidationResponse) : OpResult String × List Request :=
  let req := validateKeyRequest c licenseKey
  match f with
  | .fail code e => (.err code e, [req])
  | .success code resp =>
    if resp.Data.ID = "" then
      (.err code (.errorString ("keygen: no license id found of licenseKey " ++ licenseKey)),
       [req])
    else
      (.ok resp.Data.ID code, [req])

/-- `Client.ActivateMachine` (`client.go`): resolve the license ID from the
key, default the machine name/platform from the client configuration, then
create the machine. -/
def Client.ActivateMachine (c : Client) (licenseKey fingerprint name platform : String)
    (resolveFetch : FetchOutcome LicenseValidationResponse)
    (createFetch : FetchOutcome MachineResponse) :
    (Nat × Option GoError) × List Request :=
  match c.ResolveLicenseID licenseKey resolveFetch with
  | (.err code e, reqs) => ((code, some e), reqs)
  | (.ok licenseID _, reqs) =>
    let name := if name = "" then c.defaultMachineName else name
    let platform := if platform = "" then c.defaultPlatform else platform
    let d : MachineData :=
      { ID := ""
      , Type' := "machines"
      , Attributes := { Fingerprint := fingerprint, Platform := platform, Name := name }
      , Relationships := { License := { Data := { Type' := "licenses", ID := licenseID } } } }
    let req := machineCreateHTTPRequest c d
    match createFetch with
    | .fail code e => ((code, some e), reqs ++ [req])
    | .success code _ => ((code, none), reqs ++ [req])

/-- `Client.DeactivateMachine` (`client.go`): resolve the license ID, list
the license's machines (a single page — see `Client.ListMachines`), delete
the first machine whose fingerprint matches. Result is Go's
`(found, httpCode, err)`; `none` only in the modelling artifact case of an
empty machine-listing script. -/
def Client.DeactivateMachine (c : Client) (licenseKey fingerprint : String)
    (resolveFetch : FetchOutcome LicenseValidationResponse)
    (listScript : List (FetchOutcome MachinesListResponse))
    (deleteFetch : FetchOutcome Unit) :
    Option ((Bool × Nat × Option GoError) × List Request) :=
  match c.ResolveLicenseID licenseKey resolveFetch with
  | (.err code e, reqs) => some ((false, code, some e), reqs)
  | (.ok licenseID _, reqs) =>
    match c.ListMachines licenseID listScript with
    | (.err code e, lreqs) => some ((false, code, some e), reqs ++ lreqs)
    | (.outOfScript, _) => none
    | (.ok list code, lreqs) =>
      match list.find? (fun m => m.Fingerprint == fingerprint) with
      | some m =>
        let dreq := machineDeleteRequest c m.ID
        match deleteFetch with
        | .fail dcode e => some ((true, dcode, some e), reqs ++ lreqs ++ [dreq])
        | .success dcode _ => some ((true, dcode, none), reqs ++ lreqs ++ [dreq])
      | none => some ((false, code, none), reqs ++ lreqs)

/-- `Client.GetLicenseBySubscriptionID` (`client.go`): zero matches are
returned as success with an empty ID ("keep current behavior: not an error
if missing"); more than one match, and a single match with an empty ID, are
errors. The Go code branches on `len(resp.Data)` and `resp.Data[0].ID`,
mirrored by the match. -/
def Client.GetLicenseBySubscriptionID (c : Client) (subscriptionID : String)
    (f : FetchOutcome GetLicenseBySubscriptionResponse) : OpResult String × List Request :=
  let req := licenseBySubscriptionRequest c subscriptionID
  match f with
  | .fail code e => (.err code e, [req])
  | .success code resp =>
    match resp.Data with
    | [] => (.ok "" code, [req])
    | [d] =>
      if d.ID = "" then
        (.err code
          (.errorString ("keygen: empty license id for subscriptionId " ++ subscriptionID)),
         [req])
      else (.ok d.ID code, [req])
    | _ :: _ :: _ =>
      (.err code
        (.errorString ("keygen: multiple licenses for subscriptionId " ++ subscriptionID)),
       [req])

/-- Cursor-following listing of machines filtered by license, written from
the specification's words (the spec states the machines-by-license listing
follows the next-link across pages, starting at page 1 with size 100, with
cursor logic identical to the other paged collections). This is the
comparison definition for the refinement claim about `Client.ListMachines`. -/
def specListMachinesByLicenseLoop (c : Client) (licenseID : String)
    (script : List (FetchOutcome MachinesListResponse))
    (page : Nat) (out : List Machine) :
    PagedResult Machine × List Request :=
  match script with
  | [] =>
    (.outOfScript,
     [{ machinesByLicenseRequest c licenseID with
        query := [("license", licenseID), ("page[number]", toString page), ("page[size]", "100")] }])
  | f :: rest =>
    let req : Request :=
      { machinesByLicenseRequest c licenseID with
        query := [("license", licenseID), ("page[number]", toString page), ("page[size]", "100")] }
    match f with
    | .fail code e => (.err code e, [req])
    | .success code resp =>
      let out := out ++ resp.Data.map machineOfDataByLicense
      match resp.Links.Next with
      | none => (.ok out code, [req])
      | some _ =>
        let r := specListMachinesByLicenseLoop c licenseID rest (page + 1) out
        (r.1, req :: r.2)

/-- Entry point of the spec-side machines-by-license pager: page 1, empty
accumulator. -/
def specListMachinesByLicense (c : Client) (licenseID : String)
    (script : List (FetchOutcome MachinesListResponse)) :
    PagedResult Machine × List Request :=
  specListMachinesByLicenseLoop c licenseID script 1 []

/-- When a `Client.do` call receives a completed HTTP response, its exit is
decided purely by the status code (and, for 2xx with an `out` target, by the
decode of the body). -/
theorem doExec_received (hasIn wantOut : Bool) (env : DoEnv α) (resp : HTTPResponse)
    (h : responseReceived hasIn env = some resp) :
    doExec hasIn wantOut env =
      (if resp.StatusCode < 200 ∨ 300 ≤ resp.StatusCode then
        .apiError resp.StatusCode resp.Body
      else if !wantOut then .okNoOut resp.StatusCode
      else
        match env.decode resp.Body with
        | .error msg => .decodeError resp.StatusCode msg
        | .ok v => .okOut resp.StatusCode v) := by
  obtain ⟨ef, nrf, tr, dec⟩ := env
  cases hasIn <;> rcases ef with _ | em <;> rcases nrf with _ | nm <;>
      rcases tr with r | tm <;>
    simp_all [doExec, responseReceived]

/-- When a `Client.do` call never receives a response, it exits through one
of the three pre-response failure sites. -/
theorem doExec_noResponse (hasIn wantOut : Bool) (env : DoEnv α)
    (h : responseReceived hasIn env = none) :
    (∃ m, doExec hasIn wantOut env = .encodeError m) ∨
    (∃ m, doExec hasIn wantOut env = .newRequestError m) ∨
    (∃ m, doExec hasIn wantOut env = .transportError m) := by
  obtain ⟨ef, nrf, tr, dec⟩ := env
  cases hasIn <;> rcases ef with _ | em <;> rcases nrf with _ | nm <;>
      rcases tr with r | tm <;>
    simp_all [doExec, responseReceived]

/-- C2: for every response with status code outside [200,299], the error
`Client.do` returns has message exactly
`"keygen: <METHOD> <path> -> HTTP <code>: <body>"` when the response body is
non-empty, and exactly `"keygen: <METHOD> <path> -> HTTP <code>"` (no
trailing colon or body fragment) when the body is empty. -/
theorem do_nonSuccess_message_format (method path : String) (hasIn wantOut : Bool)
    (env : DoEnv α) (resp : HTTPResponse)
    (hrecv : responseReceived hasIn env = some resp)
    (hcode : resp.StatusCode < 200 ∨ 300 ≤ resp.StatusCode) :
    (doReturn method path hasIn wantOut env).2.1 =
      some (.errorString
        (if resp.Body = "" then
          "keygen: " ++ method ++ " " ++ path ++ " -> HTTP " ++ toString resp.StatusCode
        else
          "keygen: " ++ method ++ " " ++ path ++ " -> HTTP " ++ toString resp.StatusCode
            ++ ": " ++ resp.Body)) := by
  unfold doReturn
  rw [doExec_received hasIn wantOut env resp hrecv, if_pos hcode]
  by_cases hb : resp.Body = "" <;>
    simp [DoExit.goError, apiErrorMessage, hb]

/-- Environment of a `Client.do` call against a stub server that answers
with the given status and body (encode, request construction and transport
all succeed; the decode target is irrelevant for non-2xx scenarios). -/
def stubEnv (code : Nat) (body : String) : DoEnv Unit :=
  { encodeFail := none
  , newReqFail := none
  , transport := .ok { StatusCode := code, Body := body }
  , decode := fun _ => .ok () }

/-- The JSON error body the repository's own tests answer 422 with. -/
def jsonErrBody : String :=
  "\x7b\"errors\":[\x7b\"code\":\"MACHINE_LIMIT_EXCEEDED\"\x7d]\x7d"

/-- Witness for C2: the two scenarios of the repository's own
`TestErrorMessageFormat` — a 422 with a JSON body and a 500 with an empty
body — produce exactly the documented messages. -/
theorem do_nonSuccess_message_format_witness :
    (doReturn "POST" "/accounts/test-account/licenses" true true (stubEnv 422 jsonErrBody)).2.1 =
      some (.errorString
        ("keygen: POST /accounts/test-account/licenses -> HTTP 422: " ++ jsonErrBody)) ∧
    (doReturn "POST" "/accounts/test-account/licenses" true true (stubEnv 500 "")).2.1 =
      some (.errorString "keygen: POST /accounts/test-account/licenses -> HTTP 500") := by
  constructor
  · have h := do_nonSuccess_message_format "POST" "/accounts/test-account/licenses" true true
      (stubEnv 422 jsonErrBody) { StatusCode := 422, Body := jsonErrBody } rfl (by decide)
    rw [h]
    rfl
  · have h := do_nonSuccess_message_format "POST" "/accounts/test-account/licenses" true true
      (stubEnv 500 "") { StatusCode := 500, Body := "" } rfl (by decide)
    rw [h]
    rfl

/-- C1 (code bug): at the exact exchange of the repository's own
`TestAllClientMethods_ReturnHTTPError` — `POST /accounts/test-account/licenses`
answered with status 422 and a JSON error body — `Client.do` returns a
non-nil error with the documented message, but the error is a plain
`fmt.Errorf` value: the type assertion to `*HTTPError` fails and
`errors.Unwrap` yields no cause, so the introspection of status code,
method and path required by the spec (and asserted by the package's tests
and README) is impossible. -/
theorem do_error_not_httpError_at_422 :
    doReturn "POST" "/accounts/test-account/licenses" true true (stubEnv 422 jsonErrBody) =
      (422,
       some (.errorString
         ("keygen: POST /accounts/test-account/licenses -> HTTP 422: " ++ jsonErrBody)),
       none) ∧
    GoError.isHTTPError
        (.errorString
          ("keygen: POST /accounts/test-account/licenses -> HTTP 422: " ++ jsonErrBody)) =
      false ∧
    GoError.Unwrap
        (.errorString
          ("keygen: POST /accounts/test-account/licenses -> HTTP 422: " ++ jsonErrBody)) =
      none ∧
    GoError.Error
        (.errorString
          ("keygen: POST /accounts/test-account/licenses -> HTTP 422: " ++ jsonErrBody)) ≠
      "" :=
  ⟨rfl, rfl, rfl, by decide⟩

/-- C3: `Client.do` exits through its non-2xx classification branch exactly
when a completed HTTP response with status outside [200,299] was received —
in particular never for a 2xx response, regardless of its body or of whether
the body decodes — and every failure where no HTTP response was received
returns the sentinel status code 0 together with a non-nil error. -/
theorem do_api_error_iff (method path : String) (hasIn wantOut : Bool) (env : DoEnv α) :
    ((∃ code body, doExec hasIn wantOut env = .apiError code body) ↔
      (∃ resp, responseReceived hasIn env = some resp ∧
        (resp.StatusCode < 200 ∨ 300 ≤ resp.StatusCode))) ∧
    (responseReceived hasIn env = none →
      (doExec hasIn wantOut env).httpCode = 0 ∧
      ((doExec hasIn wantOut env).goError method path).isSome = true) := by
  constructor
  · constructor
    · rintro ⟨code, body, hex⟩
      cases hrecv : responseReceived hasIn env with
      | none =>
        rcases doExec_noResponse hasIn wantOut env hrecv with ⟨m, hm⟩ | ⟨m, hm⟩ | ⟨m, hm⟩ <;>
          rw [hm] at hex <;> cases hex
      | some resp =>
        refine ⟨resp, rfl, ?_⟩
        by_contra hc
        rw [doExec_received hasIn wantOut env resp hrecv, if_neg hc] at hex
        by_cases hw : (!wantOut) = true
        · rw [if_pos hw] at hex
          cases hex
        · rw [if_neg hw] at hex
          cases hdec : env.decode resp.Body <;> rw [hdec] at hex <;> cases hex
    · rintro ⟨resp, hrecv, hcode⟩
      exact ⟨resp.StatusCode, resp.Body, by
        rw [doExec_received hasIn wantOut env resp hrecv, if_pos hcode]⟩
  · intro hrecv
    rcases doExec_noResponse hasIn wantOut env hrecv with ⟨m, hm⟩ | ⟨m, hm⟩ | ⟨m, hm⟩ <;>
      rw [hm] <;> exact ⟨rfl, rfl⟩

/-- Environment of a `Client.do` call whose 2xx response body fails to
decode into the caller's target type. -/
def stubDecodeFailEnv (code : Nat) (body : String) : DoEnv Unit :=
  { encodeFail := none
  , newReqFail := none
  , transport := .ok { StatusCode := code, Body := body }
  , decode := fun _ => .error "invalid character" }

/-- Environment of a `Client.do` call whose transport fails before any
response is received. -/
def stubTransportFailEnv : DoEnv Unit :=
  { encodeFail := none
  , newReqFail := none
  , transport := .fail "connection refused"
  , decode := fun _ => .ok () }

/-- Witness for C3: a 422 response is classified as an API error; a 204
response is not, even with a non-empty undecodable body; a transport failure
yields status code 0 and a non-nil error. -/
theorem do_api_error_iff_witness :
    (∃ code body, doExec true true (stubEnv 422 jsonErrBody) = .apiError code body) ∧
    ¬ (∃ code body,
        doExec true true (stubDecodeFailEnv 204 "not json") = .apiError code body) ∧
    ((doExec true true stubTransportFailEnv).httpCode = 0 ∧
      ((doExec true true stubTransportFailEnv).goError "GET" "/x").isSome = true) := by
  refine ⟨?_, ?_, ?_⟩
  · exact (do_api_error_iff "POST" "/accounts/test-account/licenses" true true
        (stubEnv 422 jsonErrBody)).1.mpr
      ⟨{ StatusCode := 422, Body := jsonErrBody }, rfl, by decide⟩
  · intro hc
    have h := (do_api_error_iff "GET" "/x" true true
        (stubDecodeFailEnv 204 "not json")).1.mp hc
    rcases h with ⟨resp, hresp, hcode⟩
    have hr : resp = { StatusCode := 204, Body := "not json" } := by
      simpa [stubDecodeFailEnv, responseReceived] using hresp.symm
    rw [hr] at hcode
    simp at hcode
  · exact (do_api_error_iff "GET" "/x" true true stubTransportFailEnv).2 rfl

/-- Mapping over `List.range (n + 1)` peels off the first index. -/
theorem range_succ_map_shift {γ : Type} (f : Nat → γ) (n : Nat) :
    (List.range (n + 1)).map f = f 0 :: (List.range n).map (fun i => f (i + 1)) := by
  rw [List.range_succ_eq_map]
  simp [Function.comp]

/-- Stepping lemma for the licenses pager: a prefix of successful pages that
all carry a next link is consumed in order, appending each page's decoded
items and issuing consecutive page numbers, before the loop continues on the
remaining script. -/
theorem listLicensesByPolicyLoop_front (c : Client) (policyID : String)
    (front : List (Nat × ListLicensesByPolicyResponse))
    (tail : List (FetchOutcome ListLicensesByPolicyResponse))
    (hfront : ∀ p ∈ front, (p.2.Links.Next).isSome = true)
    (page : Nat) (out : List LicenseSummary) :
    listLicensesByPolicyLoop c policyID
        (front.map (fun p => FetchOutcome.success p.1 p.2) ++ tail) page out =
      ((listLicensesByPolicyLoop c policyID tail (page + front.length)
          (out ++ front.flatMap (fun p => p.2.Data.map licenseSummaryOfEntry))).1,
       (List.range front.length).map
           (fun i => licensesByPolicyRequest c policyID (page + i)) ++
         (listLicensesByPolicyLoop c policyID tail (page + front.length)
             (out ++ front.flatMap (fun p => p.2.Data.map licenseSummaryOfEntry))).2) := by
  induction front generalizing page out with
  | nil => simp
  | cons p front ih =>
    obtain ⟨nx, hnx⟩ := Option.isSome_iff_exists.mp (hfront p (List.mem_cons_self p front))
    have hrest : ∀ q ∈ front, (q.2.Links.Next).isSome = true :=
      fun q hq => hfront q (List.mem_cons_of_mem p hq)
    have harith : page + 1 + front.length = page + (front.length + 1) := by omega
    have hfun : (fun i => licensesByPolicyRequest c policyID (page + 1 + i)) =
        (fun i => licensesByPolicyRequest c policyID (page + (i + 1))) :=
      funext fun i => by rw [Nat.add_assoc, Nat.add_comm 1 i]
    simp only [List.map_cons, List.cons_append, listLicensesByPolicyLoop, hnx, List.append_eq]
    rw [ih hrest (page + 1) (out ++ p.2.Data.map licenseSummaryOfEntry)]
    simp only [List.length_cons, List.flatMap_cons, harith, range_succ_map_shift,
      List.cons_append, Nat.add_zero, hfun, List.append_assoc]

/-- Stepping lemma for the machines pager, identical in structure to
`listLicensesByPolicyLoop_front` (the source duplicates the cursor logic). -/
theorem listAllMachinesLoop_front (c : Client)
    (front : List (Nat × MachinesListResponse))
    (tail : List (FetchOutcome MachinesListResponse))
    (hfront : ∀ p ∈ front, (p.2.Links.Next).isSome = true)
    (page : Nat) (out : List Machine) :
    listAllMachinesLoop c
        (front.map (fun p => FetchOutcome.success p.1 p.2) ++ tail) page out =
      ((listAllMachinesLoop c tail (page + front.length)
          (out ++ front.flatMap (fun p => p.2.Data.map machineOfDataAll))).1,
       (List.range front.length).map (fun i => machinesPageRequest c (page + i)) ++
         (listAllMachinesLoop c tail (page + front.length)
             (out ++ front.flatMap (fun p => p.2.Data.map machineOfDataAll))).2) := by
  induction front generalizing page out with
  | nil => simp
  | cons p front ih =>
    obtain ⟨nx, hnx⟩ := Option.isSome_iff_exists.mp (hfront p (List.mem_cons_self p front))
    have hrest : ∀ q ∈ front, (q.2.Links.Next).isSome = true :=
      fun q hq => hfront q (List.mem_cons_of_mem p hq)
    have harith : page + 1 + front.length = page + (front.length + 1) := by omega
    have hfun : (fun i => machinesPageRequest c (page + 1 + i)) =
        (fun i => machinesPageRequest c (page + (i + 1))) :=
      funext fun i => by rw [Nat.add_assoc, Nat.add_comm 1 i]
    simp only [List.map_cons, List.cons_append, listAllMachinesLoop, hnx, List.append_eq]
    rw [ih hrest (page + 1) (out ++ p.2.Data.map machineOfDataAll)]
    simp only [List.length_cons, List.flatMap_cons, harith, range_succ_map_shift,
      List.cons_append, Nat.add_zero, hfun, List.append_assoc]

/-- C4: for every finite sequence of successful pages (all but the last
carrying a next link, the last not), the two paged listing operations issue
requests with `page[number] = 1, 2, ..., k` and `page[size] = 100` (the
request records carry the size), append each page's decoded items in
server-returned order with no reordering or de-duplication, and terminate
exactly when a page's next-link is absent — the pages other than the last
may contain any number of items, including zero. -/
theorem paged_listing_requests_and_items (c : Client) (policyID : String)
    (lfront : List (Nat × ListLicensesByPolicyResponse))
    (lcode : Nat) (llast : ListLicensesByPolicyResponse)
    (hlf : ∀ p ∈ lfront, (p.2.Links.Next).isSome = true)
    (hll : llast.Links.Next = none)
    (mfront : List (Nat × MachinesListResponse))
    (mcode : Nat) (mlast : MachinesListResponse)
    (hmf : ∀ p ∈ mfront, (p.2.Links.Next).isSome = true)
    (hml : mlast.Links.Next = none) :
    c.ListLicensesByPolicy policyID
        (lfront.map (fun p => FetchOutcome.success p.1 p.2) ++ [.success lcode llast]) =
      (.ok ((lfront.flatMap (fun p => p.2.Data.map licenseSummaryOfEntry)) ++
          llast.Data.map licenseSummaryOfEntry) lcode,
       (List.range (lfront.length + 1)).map
         (fun i => licensesByPolicyRequest c policyID (1 + i))) ∧
    c.ListAllMachines
        (mfront.map (fun p => FetchOutcome.success p.1 p.2) ++ [.success mcode mlast]) =
      (.ok ((mfront.flatMap (fun p => p.2.Data.map machineOfDataAll)) ++
          mlast.Data.map machineOfDataAll) mcode,
       (List.range (mfront.length + 1)).map (fun i => machinesPageRequest c (1 + i))) := by
  constructor
  · unfold Client.ListLicensesByPolicy
    rw [listLicensesByPolicyLoop_front c policyID lfront [.success lcode llast] hlf 1 []]
    simp only [listLicensesByPolicyLoop, hll, List.nil_append, List.range_succ,
      List.map_append, List.map_nil]
    rfl
  · unfold Client.ListAllMachines
    rw [listAllMachinesLoop_front c mfront [.success mcode mlast] hmf 1 []]
    simp only [listAllMachinesLoop, hml, List.nil_append, List.range_succ,
      List.map_append, List.map_nil]
    rfl

/-- A concrete client configuration for witnesses (the values of the
repository's own stub-server tests). -/
def cTest : Client :=
  { accountID := "test-account"
  , apiToken := "test-token"
  , baseURL := "http://stub"
  , defaultMachineName := "dappnode"
  , defaultPlatform := "linux" }

/-- A concrete license entry. -/
def lEnt (i k s : String) : LicenseEntry :=
  { ID := i, Attributes := { Key := k, Status := s, Metadata := "" } }

/-- Page 1 of a concrete three-page license collection: two entries, next
link present. -/
def lPage1 : ListLicensesByPolicyResponse :=
  { Data := [lEnt "l1" "k1" "active", lEnt "l2" "" "active"]
  , Links := { Next := some "p2" } }

/-- Page 2: zero entries but a next link — the loop must continue. -/
def lPage2 : ListLicensesByPolicyResponse :=
  { Data := [], Links := { Next := some "p3" } }

/-- Page 3: one entry, no next link — the loop must stop here. -/
def lPage3 : ListLicensesByPolicyResponse :=
  { Data := [lEnt "l3" "k3" "active"], Links := { Next := none } }

/-- A concrete machine wire record. -/
def mData (i lic fp : String) : MachineData :=
  { ID := i
  , Type' := "machines"
  , Attributes := { Fingerprint := fp, Platform := "linux", Name := "dappnode" }
  , Relationships := { License := { Data := { Type' := "licenses", ID := lic } } } }

/-- Page 1 of a concrete two-page machine collection: two machines, next
link present. -/
def mPage1 : MachinesListResponse :=
  { Data := [mData "m1" "l1" "fp1", mData "m2" "l1" "fp2"]
  , Links := { Next := some "p2" } }

/-- Page 2: one machine, no next link. -/
def mPage2 : MachinesListResponse :=
  { Data := [mData "m3" "l2" "fp3"], Links := { Next := none } }

/-- Witness for C4: three license pages of 2, 0 and 1 items yield 3 items in
order from 3 requests (pages 1..3, size 100) — the empty page does not stop
the loop — and two machine pages of 2 and 1 items yield exactly 3 items from
exactly 2 requests. -/
theorem paged_listing_requests_and_items_witness :
    cTest.ListLicensesByPolicy "pol"
        [.success 200 lPage1, .success 200 lPage2, .success 200 lPage3] =
      (.ok [licenseSummaryOfEntry (lEnt "l1" "k1" "active"),
            licenseSummaryOfEntry (lEnt "l2" "" "active"),
            licenseSummaryOfEntry (lEnt "l3" "k3" "active")] 200,
       [licensesByPolicyRequest cTest "pol" 1,
        licensesByPolicyRequest cTest "pol" 2,
        licensesByPolicyRequest cTest "pol" 3]) ∧
    cTest.ListAllMachines [.success 200 mPage1, .success 200 mPage2] =
      (.ok [machineOfDataAll (mData "m1" "l1" "fp1"),
            machineOfDataAll (mData "m2" "l1" "fp2"),
            machineOfDataAll (mData "m3" "l2" "fp3")] 200,
       [machinesPageRequest cTest 1, machinesPageRequest cTest 2]) := by
  have h := paged_listing_requests_and_items cTest "pol"
      [(200, lPage1), (200, lPage2)] 200 lPage3 (by decide) rfl
      [(200, mPage1)] 200 mPage2 (by decide) rfl
  exact ⟨h.1, h.2⟩

/-- C6: if some page's fetch fails, after a prefix of successful pages that
all carry next links, the paged listing operation returns exactly that
page's error — no wrapping, no aggregation — together with Go's `nil` item
slice (the `err` result carries no items), for both paged collections. -/
theorem paged_listing_abort (c : Client) (policyID : String)
    (lfront : List (Nat × ListLicensesByPolicyResponse))
    (hlf : ∀ p ∈ lfront, (p.2.Links.Next).isSome = true)
    (lcode : Nat) (le : GoError)
    (lrest : List (FetchOutcome ListLicensesByPolicyResponse))
    (mfront : List (Nat × MachinesListResponse))
    (hmf : ∀ p ∈ mfront, (p.2.Links.Next).isSome = true)
    (mcode : Nat) (me : GoError)
    (mrest : List (FetchOutcome MachinesListResponse)) :
    c.ListLicensesByPolicy policyID
        (lfront.map (fun p => FetchOutcome.success p.1 p.2) ++ .fail lcode le :: lrest) =
      (.err lcode le,
       (List.range (lfront.length + 1)).map
         (fun i => licensesByPolicyRequest c policyID (1 + i))) ∧
    c.ListAllMachines
        (mfront.map (fun p => FetchOutcome.success p.1 p.2) ++ .fail mcode me :: mrest) =
      (.err mcode me,
       (List.range (mfront.length + 1)).map (fun i => machinesPageRequest c (1 + i))) := by
  constructor
  · unfold Client.ListLicensesByPolicy
    rw [listLicensesByPolicyLoop_front c policyID lfront (.fail lcode le :: lrest) hlf 1 []]
    simp only [listLicensesByPolicyLoop, List.range_succ, List.map_append, List.map_nil]
    rfl
  · unfold Client.ListAllMachines
    rw [listAllMachinesLoop_front c mfront (.fail mcode me :: mrest) hmf 1 []]
    simp only [listAllMachinesLoop, List.range_succ, List.map_append, List.map_nil]
    rfl

/-- Witness for C6: with page 1 succeeding (next link present) and page 2
failing with a concrete error, both listings return exactly that error and
no items, after exactly two requests. -/
theorem paged_listing_abort_witness :
    cTest.ListLicensesByPolicy "pol"
        [.success 200 lPage1, .fail 422 (.errorString "page 2 boom")] =
      (.err 422 (.errorString "page 2 boom"),
       [licensesByPolicyRequest cTest "pol" 1, licensesByPolicyRequest cTest "pol" 2]) ∧
    cTest.ListAllMachines [.success 200 mPage1, .fail 422 (.errorString "page 2 boom")] =
      (.err 422 (.errorString "page 2 boom"),
       [machinesPageRequest cTest 1, machinesPageRequest cTest 2]) := by
  have h := paged_listing_abort cTest "pol"
      [(200, lPage1)] (by decide) 422 (.errorString "page 2 boom") []
      [(200, mPage1)] (by decide) 422 (.errorString "page 2 boom") []
  exact ⟨h.1, h.2⟩

/-- The two-page machine collection used to exhibit that `ListMachines` does
not follow the cursor. -/
def twoPageMachineScript : List (FetchOutcome MachinesListResponse) :=
  [.success 200 mPage1, .success 200 mPage2]

/-- C5 (counterexample): on a concrete two-page machine collection — page 1
with two machines and a next link, page 2 with one machine and no next
link — `ListMachines` issues a single request and returns only page 1's two
machines, while the cursor-following pager the spec describes returns all
three; so the machines-by-license listing does not exhibit the same
cursor-following behavior as the other paged collections. -/
theorem listMachines_not_cursor_following :
    (cTest.ListMachines "l1" twoPageMachineScript).1 =
      PagedResult.ok [machineOfDataByLicense (mData "m1" "l1" "fp1"),
                      machineOfDataByLicense (mData "m2" "l1" "fp2")] 200 ∧
    (cTest.ListMachines "l1" twoPageMachineScript).2 =
      [machinesByLicenseRequest cTest "l1"] ∧
    (specListMachinesByLicense cTest "l1" twoPageMachineScript).1 =
      PagedResult.ok [machineOfDataByLicense (mData "m1" "l1" "fp1"),
                      machineOfDataByLicense (mData "m2" "l1" "fp2"),
                      machineOfDataByLicense (mData "m3" "l2" "fp3")] 200 ∧
    [machineOfDataByLicense (mData "m1" "l1" "fp1"),
     machineOfDataByLicense (mData "m2" "l1" "fp2")] ≠
      [machineOfDataByLicense (mData "m1" "l1" "fp1"),
       machineOfDataByLicense (mData "m2" "l1" "fp2"),
       machineOfDataByLicense (mData "m3" "l2" "fp3")] :=
  ⟨rfl, rfl, rfl, by decide⟩

/-- C5 (amended): `ListMachines` is not cursor-following — whatever the
first page's next-link says and whatever further pages exist, it issues
exactly one request (`page[number]=1`, `page[size]=100`, license filter) and
returns exactly the first page's items; only `ListLicensesByPolicy` and
`ListAllMachines` share the cursor-following loop. -/
theorem listMachines_single_page (c : Client) (licenseID : String) (code : Nat)
    (resp : MachinesListResponse) (rest : List (FetchOutcome MachinesListResponse)) :
    c.ListMachines licenseID (.success code resp :: rest) =
      (.ok (resp.Data.map machineOfDataByLicense) code,
       [machinesByLicenseRequest c licenseID]) := rfl

/-- The resolver's semantic error message differs from every message the
non-2xx classification branch can produce for a POST exchange, whatever the
path, status code and body: the former reads `keygen: no ...` where the
latter reads `keygen: POST ...` (they differ at character index 8). -/
theorem resolver_msg_ne_api_msg (licenseKey p bd : String) (cd : Nat) :
    ("keygen: no license id found of licenseKey " ++ licenseKey) ≠
      apiErrorMessage "POST" p cd bd := by
  intro he
  have h8 : ("keygen: no license id found of licenseKey " ++ licenseKey).data[8]? = some 'n' := by
    rw [String.data_append, List.getElem?_append_left (by decide)]
    decide
  have h8' : (apiErrorMessage "POST" p cd bd).data[8]? = some 'P' := by
    unfold apiErrorMessage
    by_cases hbd : bd = ""
    · rw [if_pos hbd]
      simp only [String.data_append, List.append_assoc]
      rw [List.getElem?_append_right (by decide), List.getElem?_append_left (by decide)]
      decide
    · rw [if_neg hbd]
      simp only [String.data_append, List.append_assoc]
      rw [List.getElem?_append_right (by decide), List.getElem?_append_left (by decide)]
      decide
  rw [he, h8'] at h8
  exact absurd h8 (by decide)

/-- C7: a validate-key exchange that succeeds at the transport layer but
carries an empty `data.id` makes `ResolveLicenseID` fail with the semantic
error `keygen: no license id found of licenseKey <key>` — a plain error
that is not of the structured-API-error kind: the `*HTTPError` assertion
fails on it and its message differs from every message the non-2xx
classification branch can produce for this POST exchange; a response with a
non-empty `data.id` yields that identifier with no error. -/
theorem resolveLicenseID_empty_id_semantic (c : Client) (licenseKey : String) (code : Nat)
    (resp : LicenseValidationResponse) :
    (resp.Data.ID = "" →
      c.ResolveLicenseID licenseKey (.success code resp) =
        (.err code
          (.errorString ("keygen: no license id found of licenseKey " ++ licenseKey)),
         [validateKeyRequest c licenseKey]) ∧
      GoError.isHTTPError
          (.errorString ("keygen: no license id found of licenseKey " ++ licenseKey)) =
        false ∧
      (∀ p cd bd,
        GoError.errorString ("keygen: no license id found of licenseKey " ++ licenseKey) ≠
          .errorString (apiErrorMessage "POST" p cd bd))) ∧
    (resp.Data.ID ≠ "" →
      c.ResolveLicenseID licenseKey (.success code resp) =
        (.ok resp.Data.ID code, [validateKeyRequest c licenseKey])) := by
  constructor
  · intro h
    refine ⟨?_, rfl, ?_⟩
    · simp [Client.ResolveLicenseID, h]
    · intro p cd bd he
      have hmsg : ("keygen: no license id found of licenseKey " ++ licenseKey) =
          apiErrorMessage "POST" p cd bd := by
        injection he
      exact resolver_msg_ne_api_msg licenseKey p bd cd hmsg
  · intro h
    simp [Client.ResolveLicenseID, h]

/-- A concrete decoded validate-key response whose `data.id` is the given
string. -/
def valResp (i : String) : LicenseValidationResponse :=
  { Meta := { Valid := true, Code := "VALID", Detail := "is valid"
            , Timestamp := "ts", Scope := { Fingerprint := "" } }
  , Data := { ID := i, Type' := "licenses"
            , Attributes := { Key := "KEY-1", Expiry := "", Status := "ACTIVE" } } }

/-- Witness for C7: with an empty `data.id`, resolution fails with the
semantic error; with `data.id = "lic-1"` it returns `"lic-1"` and no
error. -/
theorem resolveLicenseID_empty_id_semantic_witness :
    cTest.ResolveLicenseID "KEY-1" (.success 200 (valResp "")) =
      (.err 200 (.errorString "keygen: no license id found of licenseKey KEY-1"),
       [validateKeyRequest cTest "KEY-1"]) ∧
    cTest.ResolveLicenseID "KEY-1" (.success 200 (valResp "lic-1")) =
      (.ok "lic-1" 200, [validateKeyRequest cTest "KEY-1"]) := by
  constructor
  · exact ((resolveLicenseID_empty_id_semantic cTest "KEY-1" 200 (valResp "")).1 rfl).1
  · exact (resolveLicenseID_empty_id_semantic cTest "KEY-1" 200 (valResp "lic-1")).2
      (by decide)

/-- Whatever its outcome, `ResolveLicenseID` issues exactly the one
validate-key request. -/
theorem resolveLicenseID_trace (c : Client) (k : String)
    (f : FetchOutcome LicenseValidationResponse) :
    (c.ResolveLicenseID k f).2 = [validateKeyRequest c k] := by
  cases f with
  | fail code e => rfl
  | success code resp =>
    unfold Client.ResolveLicenseID
    by_cases h : resp.Data.ID = "" <;> simp [h]

/-- C8: when the resolver fails, `ActivateMachine` and `DeactivateMachine`
return exactly the resolver's error and issue no downstream request (the
validate-key request is the only one in the trace, whatever the downstream
outcomes would have been); and in every run of either operation the first
request issued is the validate-key request. -/
theorem machine_ops_propagate_resolver_error (c : Client)
    (licenseKey fingerprint name platform : String)
    (rf : FetchOutcome LicenseValidationResponse) (code : Nat) (e : GoError)
    (hres : (c.ResolveLicenseID licenseKey rf).1 = .err code e) :
    (∀ cf, c.ActivateMachine licenseKey fingerprint name platform rf cf =
        ((code, some e), [validateKeyRequest c licenseKey])) ∧
    (∀ ls df, c.DeactivateMachine licenseKey fingerprint rf ls df =
        some ((false, code, some e), [validateKeyRequest c licenseKey])) ∧
    (∀ rf2 cf,
      (c.ActivateMachine licenseKey fingerprint name platform rf2 cf).2.head? =
        some (validateKeyRequest c licenseKey)) ∧
    (∀ rf2 ls df r, c.DeactivateMachine licenseKey fingerprint rf2 ls df = some r →
        r.2.head? = some (validateKeyRequest c licenseKey)) := by
  have hpair : c.ResolveLicenseID licenseKey rf =
      (.err code e, [validateKeyRequest c licenseKey]) :=
    Prod.ext hres (resolveLicenseID_trace c licenseKey rf)
  refine ⟨?_, ?_, ?_, ?_⟩
  · intro cf
    unfold Client.ActivateMachine
    rw [hpair]
  · intro ls df
    unfold Client.DeactivateMachine
    rw [hpair]
  · intro rf2 cf
    unfold Client.ActivateMachine
    cases hr : c.ResolveLicenseID licenseKey rf2 with
    | mk res reqs =>
      have ht : reqs = [validateKeyRequest c licenseKey] := by
        have h2 := resolveLicenseID_trace c licenseKey rf2
        rw [hr] at h2
        exact h2
      subst ht
      cases res with
      | err cd er => rfl
      | ok id cd => cases cf <;> rfl
  · intro rf2 ls df
    unfold Client.DeactivateMachine
    cases hr : c.ResolveLicenseID licenseKey rf2 with
    | mk res reqs =>
      have ht : reqs = [validateKeyRequest c licenseKey] := by
        have h2 := resolveLicenseID_trace c licenseKey rf2
        rw [hr] at h2
        exact h2
      subst ht
      cases res with
      | err cd er =>
        intro r hEq
        simp only [Option.some.injEq] at hEq
        subst hEq
        rfl
      | ok id cd =>
        dsimp only
        cases hl : c.ListMachines id ls with
        | mk lres lreqs =>
          cases lres with
          | err c2 e2 =>
            intro r hEq
            simp only [Option.some.injEq] at hEq
            subst hEq
            rfl
          | outOfScript =>
            intro r hEq
            cases hEq
          | ok list c2 =>
            dsimp only
            cases hf : list.find? (fun m => m.Fingerprint == fingerprint) with
            | none =>
              intro r hEq
              simp only [Option.some.injEq] at hEq
              subst hEq
              rfl
            | some m =>
              cases df with
              | fail dc de =>
                intro r hEq
                simp only [Option.some.injEq] at hEq
                subst hEq
                rfl
              | success dc dv =>
                intro r hEq
                simp only [Option.some.injEq] at hEq
                subst hEq
                rfl

/-- Witness for C8: a concrete failing resolver outcome (HTTP 500 transport
error) makes both operations return exactly that error with only the
validate-key request issued, whatever downstream outcomes were scripted. -/
theorem machine_ops_propagate_resolver_error_witness :
    cTest.ActivateMachine "KEY-1" "fp1" "" "" (.fail 500 (.errorString "boom"))
        (.success 201 { Data := mData "m9" "l9" "fp9" }) =
      ((500, some (.errorString "boom")), [validateKeyRequest cTest "KEY-1"]) ∧
    cTest.DeactivateMachine "KEY-1" "fp1" (.fail 500 (.errorString "boom"))
        [.success 200 mPage2] (.success 204 ()) =
      some ((false, 500, some (.errorString "boom")), [validateKeyRequest cTest "KEY-1"]) := by
  have h := machine_ops_propagate_resolver_error cTest "KEY-1" "fp1" "" ""
      (.fail 500 (.errorString "boom")) 500 (.errorString "boom") rfl
  exact ⟨h.1 (.success 201 { Data := mData "m9" "l9" "fp9" }),
         h.2.1 [.success 200 mPage2] (.success 204 ())⟩

/-- C9: on a successful lookup exchange, `GetLicenseBySubscriptionID`
returns an empty identifier with no error when zero licenses match, an
error when more than one matches, and — for exactly one match — the match's
identifier, or a semantic error if that identifier is empty. -/
theorem getLicenseBySubscriptionID_cases (c : Client) (subscriptionID : String)
    (code : Nat) (resp : GetLicenseBySubscriptionResponse) :
    (resp.Data = [] →
      c.GetLicenseBySubscriptionID subscriptionID (.success code resp) =
        (.ok "" code, [licenseBySubscriptionRequest c subscriptionID])) ∧
    (∀ d1 d2 rest, resp.Data = d1 :: d2 :: rest →
      c.GetLicenseBySubscriptionID subscriptionID (.success code resp) =
        (.err code
          (.errorString ("keygen: multiple licenses for subscriptionId " ++ subscriptionID)),
         [licenseBySubscriptionRequest c subscriptionID])) ∧
    (∀ d, resp.Data = [d] → d.ID = "" →
      c.GetLicenseBySubscriptionID subscriptionID (.success code resp) =
        (.err code
          (.errorString ("keygen: empty license id for subscriptionId " ++ subscriptionID)),
         [licenseBySubscriptionRequest c subscriptionID])) ∧
    (∀ d, resp.Data = [d] → d.ID ≠ "" →
      c.GetLicenseBySubscriptionID subscriptionID (.success code resp) =
        (.ok d.ID code, [licenseBySubscriptionRequest c subscriptionID])) := by
  refine ⟨?_, ?_, ?_, ?_⟩
  · intro h
    simp [Client.GetLicenseBySubscriptionID, h]
  · intro d1 d2 rest h
    simp [Client.GetLicenseBySubscriptionID, h]
  · intro d h hid
    simp [Client.GetLicenseBySubscriptionID, h, hid]
  · intro d h hid
    simp [Client.GetLicenseBySubscriptionID, h, hid]

/-- Witness for C9: the four concrete shapes — zero matches, two matches,
one match with an empty identifier, one match with identifier `lic-1`. -/
theorem getLicenseBySubscriptionID_cases_witness :
    cTest.GetLicenseBySubscriptionID "sub-1" (.success 200 { Data := [] }) =
      (.ok "" 200, [licenseBySubscriptionRequest cTest "sub-1"]) ∧
    cTest.GetLicenseBySubscriptionID "sub-1"
        (.success 200 { Data := [{ ID := "a" }, { ID := "b" }] }) =
      (.err 200 (.errorString "keygen: multiple licenses for subscriptionId sub-1"),
       [licenseBySubscriptionRequest cTest "sub-1"]) ∧
    cTest.GetLicenseBySubscriptionID "sub-1" (.success 200 { Data := [{ ID := "" }] }) =
      (.err 200 (.errorString "keygen: empty license id for subscriptionId sub-1"),
       [licenseBySubscriptionRequest cTest "sub-1"]) ∧
    cTest.GetLicenseBySubscriptionID "sub-1" (.success 200 { Data := [{ ID := "lic-1" }] }) =
      (.ok "lic-1" 200, [licenseBySubscriptionRequest cTest "sub-1"]) := by
  refine ⟨?_, ?_, ?_, ?_⟩
  · exact (getLicenseBySubscriptionID_cases cTest "sub-1" 200 { Data := [] }).1 rfl
  · exact (getLicenseBySubscriptionID_cases cTest "sub-1" 200
      { Data := [{ ID := "a" }, { ID := "b" }] }).2.1 { ID := "a" } { ID := "b" } [] rfl
  · exact (getLicenseBySubscriptionID_cases cTest "sub-1" 200
      { Data := [{ ID := "" }] }).2.2.1 { ID := "" } rfl rfl
  · exact (getLicenseBySubscriptionID_cases cTest "sub-1" 200
      { Data := [{ ID := "lic-1" }] }).2.2.2 { ID := "lic-1" } rfl (by decide)

/-- C10: whenever the underlying listing succeeds, `ListLicenseKeysByPolicy`
returns exactly the non-empty `Key` fields of the listed licenses, in the
listing's order — entries with an empty key are silently dropped, not
reported as errors and not kept as empty strings. -/
theorem listLicenseKeysByPolicy_drops_empty (c : Client) (policyID : String)
    (script : List (FetchOutcome ListLicensesByPolicyResponse))
    (items : List LicenseSummary) (code : Nat) (reqs : List Request)
    (h : c.ListLicensesByPolicy policyID script = (.ok items code, reqs)) :
    c.ListLicenseKeysByPolicy policyID script =
      (.ok ((items.map LicenseSummary.Key).filter (fun k => k != "")) code, reqs) := by
  unfold Client.ListLicenseKeysByPolicy
  rw [h, List.filter_map LicenseSummary.Key items]
  rfl

/-- Witness for C10: a two-page listing whose first page carries keys
`k1` and `""` and whose second carries `k3` yields exactly `[k1, k3]`. -/
theorem listLicenseKeysByPolicy_drops_empty_witness :
    cTest.ListLicenseKeysByPolicy "pol" [.success 200 lPage1, .success 200 lPage3] =
      (.ok ["k1", "k3"] 200,
       [licensesByPolicyRequest cTest "pol" 1, licensesByPolicyRequest cTest "pol" 2]) := by
  exact listLicenseKeysByPolicy_drops_empty cTest "pol"
    [.success 200 lPage1, .success 200 lPage3]
    [licenseSummaryOfEntry (lEnt "l1" "k1" "active"),
     licenseSummaryOfEntry (lEnt "l2" "" "active"),
     licenseSummaryOfEntry (lEnt "l3" "k3" "active")]
    200
    [licensesByPolicyRequest cTest "pol" 1, licensesByPolicyRequest cTest "pol" 2]
    rfl

end Keygen
